import Mathlib

/-!
Verification of the KernelSU mount-propagation hook (mount_hook.c and its
variants) against its specification.

The hook installs a kretprobe on the internal VFS function
attach_recursive_mnt. The entry handler may clear the MNT_SHARED flag on the
destination mount and records the original flags in a per-instance slot; the
return handler restores those flags verbatim when a spoof occurred.

Three variants of the source are embedded:
- MountHook: the canonical variant (src/kernel/mount_hook.c), gated by the
  atomic pause flag ksu_mount_propagation_paused;
- ZygoteHook: the alternate variant (src/unnamed/part_000), gated by the
  zygote-started latch and an opportunistically captured modules device name;
- KallsymsHook: the kallsyms-based variant (src/unnamed/part_001), whose
  initialization resolves the symbol explicitly and can fail with -ENOENT.

Kernel memory holding struct mount objects is modelled as a heap indexed by
mount identity; a C pointer (struct mount star) is an Option Nat, none being
NULL. The kretprobe per-instance data area (ri data) is modelled by passing
the prior slot contents into the entry handler, which writes only the fields
the C code writes. Machine integers (the int mnt_flags field) are modelled as
Nat; the 32-bit bitwise complement of MNT_SHARED is the explicit mask
NOT_MNT_SHARED.
-/

set_option linter.unusedVariables false

/-- MNT_SHARED, the shared mount-propagation flag bit of the Linux kernel
mount flag set: the bit the hook tests and clears. -/
def MNT_SHARED : Nat := 0x1000

/-- The value of the C expression complementing MNT_SHARED on a 32-bit int:
all 32 bits set except bit 12, so flags &&& NOT_MNT_SHARED models
flags &= ~MNT_SHARED for flag values below 2^32. -/
def NOT_MNT_SHARED : Nat := 0xFFFFFFFF ^^^ MNT_SHARED

/-- Model of struct vfsmount: the only field the hook reads or writes is
mnt_flags. -/
structure vfsmount where
  mnt_flags : Nat
deriving DecidableEq

/-- Model of struct mount: the embedded vfsmount and the device name field
mnt_devname (none models a NULL pointer; only the alternate variant reads
it). -/
structure mount where
  mnt : vfsmount
  mnt_devname : Option String
deriving DecidableEq

/-- Kernel memory holding struct mount objects, addressed by mount identity. -/
def MntHeap : Type := Nat → mount

/-- Store through a mount pointer: write the mnt_flags field of the mount at
address d, leaving every other mount and the device name untouched. -/
def heapWriteFlags (h : MntHeap) (d : Nat) (f : Nat) : MntHeap :=
  fun n => if n = d then { h n with mnt := { mnt_flags := f } } else h n

/-- Model of struct ksu_attach_mnt_state, the private kretprobe per-instance
data passed from the entry handler to the return handler: the captured
destination pointer, the captured original flags, and the spoofed marker. -/
structure ksu_attach_mnt_state where
  dest_mnt : Option Nat
  original_flags : Nat
  spoofed : Bool
deriving DecidableEq

namespace MountHook

/-- Entry handler ksu_attach_recursive_mnt_entry of src/kernel/mount_hook.c.
The atomic global ksu_mount_propagation_paused is read once (atomic_read) and
passed as the first argument; slot is the prior content of the per-instance
data area, whose fields other than the ones the handler assigns keep their
previous values; source_mnt and dest_mnt are the two pt_regs parameters of
the probed call. Returns the updated slot and heap. The source mount is never
validated nor dereferenced here (outside debug-only logging). -/
def ksu_attach_recursive_mnt_entry (ksu_mount_propagation_paused : Nat)
    (slot : ksu_attach_mnt_state) (source_mnt dest_mnt : Option Nat)
    (heap : MntHeap) : ksu_attach_mnt_state × MntHeap :=
  let state : ksu_attach_mnt_state := { slot with spoofed := false }
  if ksu_mount_propagation_paused = 0 then (state, heap)
  else
    match dest_mnt with
    | none => (state, heap)
    | some d =>
      let flags := (heap d).mnt.mnt_flags
      if flags &&& MNT_SHARED = 0 then (state, heap)
      else
        ({ dest_mnt := some d, original_flags := flags, spoofed := true },
         heapWriteFlags heap d (flags &&& NOT_MNT_SHARED))

/-- Return handler ksu_attach_recursive_mnt_ret of src/kernel/mount_hook.c:
when the slot records a spoof, write the captured original_flags back through
the stored dest_mnt pointer, otherwise do nothing. The C code dereferences
state->dest_mnt unconditionally once spoofed is set; the entry handler sets
spoofed only together with dest_mnt, so the none branch is unreachable in any
run produced by the entry handler. -/
def ksu_attach_recursive_mnt_ret (slot : ksu_attach_mnt_state)
    (heap : MntHeap) : MntHeap :=
  if slot.spoofed = false then heap
  else
    match slot.dest_mnt with
    | some d => heapWriteFlags heap d slot.original_flags
    | none => heap

/-- ksu_pause_mount_propagation of src/kernel/mount_hook.c: atomic_set of the
pause flag to 1 or 0 according to the argument. The returned value is the new
content of ksu_mount_propagation_paused. -/
def ksu_pause_mount_propagation (pause : Bool) : Nat :=
  if pause then 1 else 0

/-- Process-wide state visible to one call frame of the hooked function: the
pause flag and the mount heap. -/
structure SysState where
  ksu_mount_propagation_paused : Nat
  heap : MntHeap

/-- One run of the entry handler against the process-wide state: the pause
flag is read at entry time, the heap may be updated. -/
def entryStep (slot : ksu_attach_mnt_state) (source_mnt dest_mnt : Option Nat)
    (s : SysState) : ksu_attach_mnt_state × SysState :=
  let r := ksu_attach_recursive_mnt_entry s.ksu_mount_propagation_paused slot
      source_mnt dest_mnt s.heap
  (r.1, { s with heap := r.2 })

/-- One call of ksu_pause_mount_propagation against the process-wide state. -/
def pauseStep (b : Bool) (s : SysState) : SysState :=
  { s with ksu_mount_propagation_paused := ksu_pause_mount_propagation b }

/-- One run of the return handler against the process-wide state: it reads
only the slot and the heap. -/
def retStep (slot : ksu_attach_mnt_state) (s : SysState) : SysState :=
  { s with heap := ksu_attach_recursive_mnt_ret slot s.heap }

/-- A sequence of pause or resume toggles applied to the process-wide state. -/
def applyToggles : List Bool → SysState → SysState
  | [], s => s
  | b :: bs, s => applyToggles bs (pauseStep b s)

end MountHook

namespace ZygoteHook

/-- Globals of the alternate variant (src/unnamed/part_000): the
zygote-started latch, the devname-captured latch and the captured modules
device name. -/
structure ZygoteGlobals where
  ksu_zygote_started : Nat
  ksu_modules_devname_initialized : Nat
  ksu_modules_devname : String
deriving DecidableEq

/-- ksu_set_zygote_started of src/unnamed/part_000: atomic_set of the
zygote-started latch to 1. -/
def ksu_set_zygote_started (g : ZygoteGlobals) : ZygoteGlobals :=
  { g with ksu_zygote_started := 1 }

/-- The C condition source_mnt->mnt_devname && strncmp(source_mnt->mnt_devname,
"/dev/block/loop", 15) == 0: the pattern is exactly 15 characters, so the
strncmp succeeds exactly when the device name starts with it. A NULL device
name fails the condition. -/
def devname_matches_loop : Option String → Bool
  | some dn => dn.startsWith "/dev/block/loop"
  | none => false

/-- The C condition source_mnt->mnt_devname && strcmp(source_mnt->mnt_devname,
ksu_modules_devname) != 0: a NULL device name fails the condition. -/
def devname_differs (captured : String) : Option String → Bool
  | some dn => dn != captured
  | none => false

/-- Step 1 of the entry handler of src/unnamed/part_000: when the devname
latch is unset and the source device name starts with /dev/block/loop, copy
it (strncpy into a 256-byte buffer, hence truncation to 255 characters) and
set the latch. -/
def capture_modules_devname (g : ZygoteGlobals) (src_devname : Option String) :
    ZygoteGlobals :=
  if g.ksu_modules_devname_initialized = 0 ∧
     devname_matches_loop src_devname = true then
    { g with
      ksu_modules_devname := (src_devname.getD "").take 255,
      ksu_modules_devname_initialized := 1 }
  else g

/-- Entry handler ksu_attach_recursive_mnt_entry of src/unnamed/part_000:
default spoofed to false; validate both pointers; opportunistically capture
the modules device name; skip when zygote has started and the source device
is not the modules device; otherwise spoof a shared destination exactly as
the canonical variant does. Returns the updated slot, globals and heap. -/
def ksu_attach_recursive_mnt_entry (g : ZygoteGlobals)
    (slot : ksu_attach_mnt_state) (source_mnt dest_mnt : Option Nat)
    (heap : MntHeap) : ksu_attach_mnt_state × ZygoteGlobals × MntHeap :=
  let state : ksu_attach_mnt_state := { slot with spoofed := false }
  match source_mnt, dest_mnt with
  | some s, some d =>
    let g1 := capture_modules_devname g (heap s).mnt_devname
    if g1.ksu_zygote_started ≠ 0 ∧
       (g1.ksu_modules_devname_initialized = 0 ∨
        devname_differs g1.ksu_modules_devname (heap s).mnt_devname = true) then
      (state, g1, heap)
    else
      let flags := (heap d).mnt.mnt_flags
      if flags &&& MNT_SHARED = 0 then (state, g1, heap)
      else
        ({ dest_mnt := some d, original_flags := flags, spoofed := true },
         g1, heapWriteFlags heap d (flags &&& NOT_MNT_SHARED))
  | _, _ => (state, g, heap)

/-- Return handler ksu_attach_recursive_mnt_ret of src/unnamed/part_000,
textually identical to the canonical one: restore the captured flags through
the stored pointer when the slot records a spoof. -/
def ksu_attach_recursive_mnt_ret (slot : ksu_attach_mnt_state)
    (heap : MntHeap) : MntHeap :=
  if slot.spoofed = false then heap
  else
    match slot.dest_mnt with
    | some d => heapWriteFlags heap d slot.original_flags
    | none => heap

end ZygoteHook

namespace KallsymsHook

/-- Entry handler ksu_attach_recursive_mnt_entry of src/unnamed/part_001.
After defaulting spoofed to false it checks the pause flag, then reads the
second register argument and dereferences it with no null check on either
pointer (the source is never read at all): dest_mnt->mnt.mnt_flags is
accessed unconditionally. A NULL destination while the feature is active is
therefore a fault, modelled as none; every defined outcome is some of the
updated slot and heap. When the pause flag is 0 the handler returns before
touching the destination. -/
def ksu_attach_recursive_mnt_entry (ksu_mount_propagation_paused : Nat)
    (slot : ksu_attach_mnt_state) (source_mnt dest_mnt : Option Nat)
    (heap : MntHeap) : Option (ksu_attach_mnt_state × MntHeap) :=
  let state : ksu_attach_mnt_state := { slot with spoofed := false }
  if ksu_mount_propagation_paused = 0 then some (state, heap)
  else
    match dest_mnt with
    | none => none
    | some d =>
      let flags := (heap d).mnt.mnt_flags
      if flags &&& MNT_SHARED = 0 then some (state, heap)
      else
        some ({ dest_mnt := some d, original_flags := flags, spoofed := true },
          heapWriteFlags heap d (flags &&& NOT_MNT_SHARED))

/-- The errno value ENOENT; the init routine returns its negation when the
symbol cannot be resolved. -/
def ENOENT : Int := 2

/-- ksu_mount_hook_init of src/unnamed/part_001 (HAVE_KPROBES build). The
result of kallsyms_lookup_name for attach_recursive_mnt (none models a NULL
result, that is, an unresolvable symbol) and the status register_kretprobe
would return are environment inputs. Returns -ENOENT when the symbol cannot
be resolved, the negative registration status when registration fails, and 0
otherwise. -/
def ksu_mount_hook_init (kallsyms_lookup_name_result : Option Nat)
    (register_kretprobe_ret : Int) : Int :=
  match kallsyms_lookup_name_result with
  | none => -ENOENT
  | some _ =>
    if register_kretprobe_ret < 0 then register_kretprobe_ret else 0

end KallsymsHook

/-! ### Concrete fixtures used by scenario theorems and witnesses -/

/-- A slot with no prior capture recorded. -/
def slot0 : ksu_attach_mnt_state := { dest_mnt := none, original_flags := 0, spoofed := false }

/-- A heap where every mount has flags MNT_SHARED plus 0x10 and no device name. -/
def heap1010 : MntHeap :=
  fun _ => { mnt := { mnt_flags := 0x1010 }, mnt_devname := none }

/-- A heap where every mount is private (flags 0x10, shared bit clear). -/
def heap10 : MntHeap :=
  fun _ => { mnt := { mnt_flags := 0x10 }, mnt_devname := none }

/-- A heap where mount 0 has a NULL device name and private flags, and every
other mount is shared with device name /dev/sda1. -/
def zygoteHeapA : MntHeap :=
  fun n =>
    if n = 0 then { mnt := { mnt_flags := 0 }, mnt_devname := none }
    else { mnt := { mnt_flags := 0x1000 }, mnt_devname := some "/dev/sda1" }

/-! ### Helper lemmas -/

/-- Unfolding equation of the canonical entry handler at a non-NULL
destination. -/
theorem MountHook_entry_eq (p : Nat) (slot : ksu_attach_mnt_state)
    (src : Option Nat) (d : Nat) (heap : MntHeap) :
    MountHook.ksu_attach_recursive_mnt_entry p slot src (some d) heap =
      if p = 0 then ({ slot with spoofed := false }, heap)
      else if (heap d).mnt.mnt_flags &&& MNT_SHARED = 0 then
        ({ slot with spoofed := false }, heap)
      else
        ({ dest_mnt := some d, original_flags := (heap d).mnt.mnt_flags,
           spoofed := true },
         heapWriteFlags heap d ((heap d).mnt.mnt_flags &&& NOT_MNT_SHARED)) := rfl

/-- The canonical entry handler at a NULL destination writes only
spoofed := false and leaves the heap alone, whatever the pause flag. -/
theorem MountHook_entry_none (p : Nat) (slot : ksu_attach_mnt_state)
    (src : Option Nat) (heap : MntHeap) :
    MountHook.ksu_attach_recursive_mnt_entry p slot src none heap
      = ({ slot with spoofed := false }, heap) := by
  unfold MountHook.ksu_attach_recursive_mnt_entry
  split_ifs <;> rfl

/-- Unfolding equation of the alternate entry handler at non-NULL source and
destination. -/
theorem ZygoteHook_entry_eq (g : ZygoteHook.ZygoteGlobals)
    (slot : ksu_attach_mnt_state) (s d : Nat) (heap : MntHeap) :
    ZygoteHook.ksu_attach_recursive_mnt_entry g slot (some s) (some d) heap =
      (if (ZygoteHook.capture_modules_devname g (heap s).mnt_devname).ksu_zygote_started ≠ 0 ∧
          ((ZygoteHook.capture_modules_devname g (heap s).mnt_devname).ksu_modules_devname_initialized = 0 ∨
           ZygoteHook.devname_differs
             (ZygoteHook.capture_modules_devname g (heap s).mnt_devname).ksu_modules_devname
             (heap s).mnt_devname = true) then
        ({ slot with spoofed := false },
         ZygoteHook.capture_modules_devname g (heap s).mnt_devname, heap)
      else if (heap d).mnt.mnt_flags &&& MNT_SHARED = 0 then
        ({ slot with spoofed := false },
         ZygoteHook.capture_modules_devname g (heap s).mnt_devname, heap)
      else
        ({ dest_mnt := some d, original_flags := (heap d).mnt.mnt_flags,
           spoofed := true },
         ZygoteHook.capture_modules_devname g (heap s).mnt_devname,
         heapWriteFlags heap d ((heap d).mnt.mnt_flags &&& NOT_MNT_SHARED))) := rfl

/-- When the devname latch is already set, the capture step is a no-op. -/
theorem ZygoteHook_capture_noop (g : ZygoteHook.ZygoteGlobals)
    (dn : Option String) (hi : g.ksu_modules_devname_initialized ≠ 0) :
    ZygoteHook.capture_modules_devname g dn = g := by
  unfold ZygoteHook.capture_modules_devname
  rw [if_neg]
  intro hc
  exact hi hc.1

/-- The return handler does nothing when the slot records no spoof. -/
theorem MountHook_ret_not_spoofed (slot : ksu_attach_mnt_state)
    (h : slot.spoofed = false) (heap : MntHeap) :
    MountHook.ksu_attach_recursive_mnt_ret slot heap = heap := by
  unfold MountHook.ksu_attach_recursive_mnt_ret
  simp [h]

/-- The return handler on a spoofed slot writes the captured flags through
the captured pointer. -/
theorem MountHook_ret_spoofed (d f : Nat) (heap : MntHeap) :
    MountHook.ksu_attach_recursive_mnt_ret
        { dest_mnt := some d, original_flags := f, spoofed := true } heap
      = heapWriteFlags heap d f := rfl

/-- Pause or resume toggles never touch the mount heap. -/
theorem applyToggles_heap (ts : List Bool) (s : MountHook.SysState) :
    (MountHook.applyToggles ts s).heap = s.heap := by
  induction ts generalizing s with
  | nil => rfl
  | cons b bs ih => simp [MountHook.applyToggles, ih, MountHook.pauseStep]

/-- Bit 12 (the MNT_SHARED bit) of a flags value masked with NOT_MNT_SHARED
is clear. -/
theorem land_notShared_testBit12 (f : Nat) :
    (f &&& NOT_MNT_SHARED).testBit 12 = false := by
  rw [Nat.testBit_land]
  have h : NOT_MNT_SHARED.testBit 12 = false := by decide
  rw [h, Bool.and_false]

/-- Every bit other than bit 12 of a 32-bit flags value survives masking with
NOT_MNT_SHARED. -/
theorem land_notShared_testBit (f : Nat) (hf : f < 2 ^ 32) (i : Nat)
    (hi : i ≠ 12) : (f &&& NOT_MNT_SHARED).testBit i = f.testBit i := by
  rw [Nat.testBit_land]
  by_cases h : i < 32
  · have ht : NOT_MNT_SHARED.testBit i = true := by
      have hall : ∀ j, j < 32 → j ≠ 12 → NOT_MNT_SHARED.testBit j = true := by decide
      exact hall i h hi
    rw [ht, Bool.and_true]
  · have h1 : f.testBit i = false :=
      Nat.testBit_eq_false_of_lt
        (lt_of_lt_of_le hf (Nat.pow_le_pow_right (by norm_num) (Nat.le_of_not_lt h)))
    have h2 : NOT_MNT_SHARED.testBit i = false :=
      Nat.testBit_eq_false_of_lt
        (lt_of_lt_of_le (by decide)
          (Nat.pow_le_pow_right (by norm_num) (Nat.le_of_not_lt h)))
    rw [h1, h2, Bool.false_and]

/-! ### Claims -/

/-- C1: for every invocation of the hooked function in which the canonical
entry handler records spoofed = true, the return handler writes the exact
flags value captured at entry back onto the destination mount, so by the time
the return handler completes the destination flags equal their pre-spoof
value. The interfere argument stands for any changes made to the heap between
entry and return, by the original body or by concurrent invocations. -/
theorem C1_entry_capture_return_restore_roundtrip
    (p : Nat) (slot : ksu_attach_mnt_state) (src dst : Option Nat)
    (heap : MntHeap) (interfere : MntHeap → MntHeap) (d : Nat)
    (hd : dst = some d)
    (hs : (MountHook.ksu_attach_recursive_mnt_entry p slot src dst heap).1.spoofed
      = true) :
    (MountHook.ksu_attach_recursive_mnt_ret
        (MountHook.ksu_attach_recursive_mnt_entry p slot src dst heap).1
        (interfere
          (MountHook.ksu_attach_recursive_mnt_entry p slot src dst heap).2)
        d).mnt.mnt_flags
      = (heap d).mnt.mnt_flags := by
  subst hd
  rw [MountHook_entry_eq] at hs ⊢
  split_ifs at hs ⊢ with h1 h2
  all_goals simp_all [MountHook_ret_spoofed, heapWriteFlags]

/-- C1 witness: a concrete spoofed frame whose body overwrites the flags to
0x777; the return handler still restores the pre-spoof value 0x1010. -/
theorem C1_roundtrip_witness :
    ((some 1 : Option Nat) = some 1) ∧
    ((MountHook.ksu_attach_recursive_mnt_entry 1 slot0 (some 0) (some 1)
        heap1010).1.spoofed = true) ∧
    ((MountHook.ksu_attach_recursive_mnt_ret
        (MountHook.ksu_attach_recursive_mnt_entry 1 slot0 (some 0) (some 1)
          heap1010).1
        ((fun h => heapWriteFlags h 1 0x777)
          (MountHook.ksu_attach_recursive_mnt_entry 1 slot0 (some 0) (some 1)
            heap1010).2) 1).mnt.mnt_flags
      = (heap1010 1).mnt.mnt_flags) :=
  ⟨rfl, by decide,
   C1_entry_capture_return_restore_roundtrip 1 slot0 (some 0) (some 1) heap1010
     (fun h => heapWriteFlags h 1 0x777) 1 rfl (by decide)⟩

/-- C2 counterexample: the canonical entry handler does not validate the
source mount reference. With a NULL source, an active pause flag and a shared
destination, the spoof is still applied: spoofed is recorded true and the
destination flags are modified, contradicting the claim that a NULL source
(either reference being null) leads to a no-op. -/
theorem C2_null_source_counterexample :
    ((MountHook.ksu_attach_recursive_mnt_entry 1 slot0 none (some 0)
        heap1010).1.spoofed = true) ∧
    (((MountHook.ksu_attach_recursive_mnt_entry 1 slot0 none (some 0)
        heap1010).2 0).mnt.mnt_flags = 0x10) := by
  exact ⟨by decide, by decide⟩

/-- C2 amended: the null-reference handling differs per variant, and only the
alternate variant validates both references as the claim states. In the
alternate (part_000) variant either reference being NULL is a no-op, leaving
slot (beyond spoofed := false), globals and heap alone. In the canonical
variant only the destination is validated: a NULL destination is a no-op in
which only spoofed := false is written and the heap is untouched, while a
NULL source does not prevent the spoof (see the counterexample). In the
kallsyms (part_001) variant neither reference is validated: with the feature
active, the handler dereferences a NULL destination unconditionally, a fault
rather than a no-op. -/
theorem C2_null_check_amended
    (p : Nat) (slot : ksu_attach_mnt_state) (src : Option Nat) (heap : MntHeap)
    (g : ZygoteHook.ZygoteGlobals) (src2 dst2 : Option Nat) (heap2 : MntHeap)
    (p3 : Nat) (src3 : Option Nat) (heap3 : MntHeap)
    (h : src2 = none ∨ dst2 = none)
    (hp3 : p3 ≠ 0) :
    (ZygoteHook.ksu_attach_recursive_mnt_entry g slot src2 dst2 heap2
      = ({ slot with spoofed := false }, g, heap2)) ∧
    (MountHook.ksu_attach_recursive_mnt_entry p slot src none heap
      = ({ slot with spoofed := false }, heap)) ∧
    (KallsymsHook.ksu_attach_recursive_mnt_entry p3 slot src3 none heap3
      = none) := by
  refine ⟨?_, MountHook_entry_none p slot src heap, ?_⟩
  · rcases h with h | h
    · subst h; cases dst2 <;> rfl
    · subst h; cases src2 <;> rfl
  · unfold KallsymsHook.ksu_attach_recursive_mnt_entry
    rw [if_neg hp3]

/-- C2 amended witness: concrete instances of the no-op cases of the first
two variants and of the fault case of the kallsyms variant. -/
theorem C2_null_check_amended_witness :
    (((none : Option Nat) = none) ∨ ((some 0 : Option Nat) = none)) ∧
    ((1 : Nat) ≠ 0) ∧
    ((ZygoteHook.ksu_attach_recursive_mnt_entry ⟨0, 0, ""⟩ slot0 none (some 0)
          heap1010
        = ({ slot0 with spoofed := false }, ⟨0, 0, ""⟩, heap1010)) ∧
     (MountHook.ksu_attach_recursive_mnt_entry 1 slot0 (some 3) none heap1010
        = ({ slot0 with spoofed := false }, heap1010)) ∧
     (KallsymsHook.ksu_attach_recursive_mnt_entry 1 slot0 (some 2) none
          heap1010
        = none)) :=
  ⟨Or.inl rfl, by decide,
   C2_null_check_amended 1 slot0 (some 3) heap1010 ⟨0, 0, ""⟩ none (some 0)
     heap1010 1 (some 2) heap1010 (Or.inl rfl) (by decide)⟩

/-- C4: when the pause flag is 0 at entry, the canonical mechanism leaves the
destination flags completely unchanged: the entry handler returns the heap
untouched with spoofed = false, and the return handler on that slot is also
the identity, whatever the shared bit of the destination. -/
theorem C4_inactive_leaves_flags_unchanged
    (slot : ksu_attach_mnt_state) (src dst : Option Nat) (heap : MntHeap) :
    ((MountHook.ksu_attach_recursive_mnt_entry 0 slot src dst heap).2 = heap) ∧
    ((MountHook.ksu_attach_recursive_mnt_entry 0 slot src dst heap).1.spoofed
      = false) ∧
    (MountHook.ksu_attach_recursive_mnt_ret
        (MountHook.ksu_attach_recursive_mnt_entry 0 slot src dst heap).1 heap
      = heap) :=
  ⟨rfl, rfl, rfl⟩

/-- C5: with the feature active and destination flags MNT_SHARED plus 0x10,
the entry handler records original_flags = MNT_SHARED plus 0x10 and sets the
live flags to 0x10 (a non-shared destination for the original body), and the
return handler restores MNT_SHARED plus 0x10. -/
theorem C5_shared_0x10_scenario :
    ((MountHook.ksu_attach_recursive_mnt_entry 1 slot0 (some 0) (some 1)
        heap1010).1.original_flags = (MNT_SHARED ||| 0x10)) ∧
    ((MountHook.ksu_attach_recursive_mnt_entry 1 slot0 (some 0) (some 1)
        heap1010).1.spoofed = true) ∧
    (((MountHook.ksu_attach_recursive_mnt_entry 1 slot0 (some 0) (some 1)
        heap1010).2 1).mnt.mnt_flags = 0x10) ∧
    ((MountHook.ksu_attach_recursive_mnt_ret
        (MountHook.ksu_attach_recursive_mnt_entry 1 slot0 (some 0) (some 1)
          heap1010).1
        (MountHook.ksu_attach_recursive_mnt_entry 1 slot0 (some 0) (some 1)
          heap1010).2 1).mnt.mnt_flags = (MNT_SHARED ||| 0x10)) := by
  exact ⟨by decide, by decide, by decide, by decide⟩

/-- C6: with the feature active and both references valid, a destination
whose shared bit is clear at entry is left untouched by the entry handler
(heap unchanged, spoofed remains false) and by the return handler, which is
the identity on every heap for that slot. -/
theorem C6_private_destination_untouched
    (p : Nat) (slot : ksu_attach_mnt_state) (src : Option Nat) (d : Nat)
    (heap : MntHeap)
    (hp : p ≠ 0)
    (hflags : (heap d).mnt.mnt_flags &&& MNT_SHARED = 0) :
    (MountHook.ksu_attach_recursive_mnt_entry p slot src (some d) heap
       = ({ slot with spoofed := false }, heap)) ∧
    (∀ h2 : MntHeap,
       MountHook.ksu_attach_recursive_mnt_ret { slot with spoofed := false } h2
         = h2) := by
  constructor
  · rw [MountHook_entry_eq, if_neg hp, if_pos hflags]
  · intro h2
    exact MountHook_ret_not_spoofed _ rfl h2

/-- C6 witness: a concrete private destination with the feature active. -/
theorem C6_private_destination_witness :
    ((1 : Nat) ≠ 0) ∧
    ((heap10 1).mnt.mnt_flags &&& MNT_SHARED = 0) ∧
    (MountHook.ksu_attach_recursive_mnt_entry 1 slot0 (some 0) (some 1) heap10
       = ({ slot0 with spoofed := false }, heap10)) ∧
    (MountHook.ksu_attach_recursive_mnt_ret { slot0 with spoofed := false }
        heap10 = heap10) :=
  ⟨by decide, by decide,
   (C6_private_destination_untouched 1 slot0 (some 0) 1 heap10 (by decide)
      (by decide)).1,
   (C6_private_destination_untouched 1 slot0 (some 0) 1 heap10 (by decide)
      (by decide)).2 heap10⟩

/-- C3 counterexample: in the alternate variant, after the bootstrap latch is
set and a device name has been captured, an invocation whose source has a
NULL device name is spoofed although its source device name does not equal
the captured trusted name: the scope gate is not "only matching devices". -/
theorem C3_null_devname_spoofed_counterexample :
    ((ZygoteHook.ksu_attach_recursive_mnt_entry ⟨1, 1, "/dev/block/loop7"⟩
        slot0 (some 0) (some 1) zygoteHeapA).1.spoofed = true) ∧
    ((zygoteHeapA 0).mnt_devname ≠ some "/dev/block/loop7") ∧
    (((ZygoteHook.ksu_attach_recursive_mnt_entry ⟨1, 1, "/dev/block/loop7"⟩
        slot0 (some 0) (some 1) zygoteHeapA).2.2 1).mnt.mnt_flags
      ≠ (zygoteHeapA 1).mnt.mnt_flags) := by
  exact ⟨by decide, by decide, by decide⟩

/-- C3 amended: in the alternate variant, after the bootstrap signal has been
latched and a trusted device name captured, the spoof is applied only when
the source device name matches the captured name or the source device name
pointer is NULL; every invocation whose source carries a present, different
device name is bypassed without modifying the destination flags or the
globals, leaving spoofed false. -/
theorem C3_scope_gate_amended
    (g : ZygoteHook.ZygoteGlobals) (slot : ksu_attach_mnt_state) (s d : Nat)
    (heap : MntHeap)
    (hz : g.ksu_zygote_started ≠ 0)
    (hi : g.ksu_modules_devname_initialized ≠ 0) :
    (∀ dn, (heap s).mnt_devname = some dn → dn ≠ g.ksu_modules_devname →
       ZygoteHook.ksu_attach_recursive_mnt_entry g slot (some s) (some d) heap
         = ({ slot with spoofed := false }, g, heap)) ∧
    ((ZygoteHook.ksu_attach_recursive_mnt_entry g slot (some s) (some d)
          heap).1.spoofed = true →
       (heap s).mnt_devname = none ∨
       (heap s).mnt_devname = some g.ksu_modules_devname) := by
  have hg1 := ZygoteHook_capture_noop g (heap s).mnt_devname hi
  constructor
  · intro dn hdn hne
    have hdiff : ZygoteHook.devname_differs g.ksu_modules_devname
        (heap s).mnt_devname = true := by
      rw [hdn]
      simpa [ZygoteHook.devname_differs] using hne
    rw [ZygoteHook_entry_eq, hg1, if_pos ⟨hz, Or.inr hdiff⟩]
  · intro hs
    rw [ZygoteHook_entry_eq, hg1] at hs
    by_contra hcon
    push_neg at hcon
    obtain ⟨hnone, hsome⟩ := hcon
    rcases hdn : (heap s).mnt_devname with _ | dn
    · exact hnone hdn
    · have hne : dn ≠ g.ksu_modules_devname := by
        intro heq
        exact hsome (by rw [hdn, heq])
      have hdiff : ZygoteHook.devname_differs g.ksu_modules_devname
          (heap s).mnt_devname = true := by
        rw [hdn]
        simpa [ZygoteHook.devname_differs] using hne
      rw [if_pos ⟨hz, Or.inr hdiff⟩] at hs
      exact absurd hs (by simp)

/-- C3 amended witness: after latch and capture, a concrete invocation from a
different present device is bypassed entirely. -/
theorem C3_scope_gate_amended_witness :
    ZygoteHook.ksu_attach_recursive_mnt_entry ⟨1, 1, "/dev/block/loop7"⟩ slot0
        (some 1) (some 1) zygoteHeapA
      = ({ slot0 with spoofed := false }, ⟨1, 1, "/dev/block/loop7"⟩,
         zygoteHeapA) :=
  (C3_scope_gate_amended ⟨1, 1, "/dev/block/loop7"⟩ slot0 1 1 zygoteHeapA
      (by decide) (by decide)).1 "/dev/sda1" rfl (by decide)

/-- C7: for every call frame of the canonical hook, any sequence of pause
toggles issued between that frame entry and its return leaves the frame
behavior unchanged: the slot is fixed at entry, and the heap after the return
handler is the same whatever toggles ran in between, because the return
handler reads only the slot and the heap. -/
theorem C7_frame_decision_fixed_at_entry
    (slot : ksu_attach_mnt_state) (src dst : Option Nat)
    (s : MountHook.SysState) (ts ts2 : List Bool) :
    (MountHook.retStep (MountHook.entryStep slot src dst s).1
        (MountHook.applyToggles ts (MountHook.entryStep slot src dst s).2)).heap
      = (MountHook.retStep (MountHook.entryStep slot src dst s).1
          (MountHook.applyToggles ts2
            (MountHook.entryStep slot src dst s).2)).heap := by
  simp [MountHook.retStep, applyToggles_heap]

/-- C8: the kallsyms-variant init returns a non-zero status exactly when the
symbol cannot be resolved (then -ENOENT) or registration fails with a
negative status (then that status); in every other case it returns 0. -/
theorem C8_init_failure_characterization
    (lookup : Option Nat) (reg : Int) :
    ((KallsymsHook.ksu_mount_hook_init lookup reg ≠ 0) ↔
        (lookup = none ∨ reg < 0)) ∧
    (lookup = none →
        KallsymsHook.ksu_mount_hook_init lookup reg = -KallsymsHook.ENOENT) ∧
    (∀ a, lookup = some a → reg < 0 →
        KallsymsHook.ksu_mount_hook_init lookup reg = reg) ∧
    (∀ a, lookup = some a → 0 ≤ reg →
        KallsymsHook.ksu_mount_hook_init lookup reg = 0) := by
  cases lookup with
  | none =>
    refine ⟨?_, ?_, ?_, ?_⟩
    · constructor
      · intro _
        exact Or.inl rfl
      · intro _
        show -KallsymsHook.ENOENT ≠ 0
        decide
    · intro _
      rfl
    · intro a h
      cases h
    · intro a h
      cases h
  | some a =>
    refine ⟨?_, ?_, ?_, ?_⟩
    · constructor
      · intro hne
        by_cases hreg : reg < 0
        · exact Or.inr hreg
        · refine absurd ?_ hne
          show (if reg < 0 then reg else 0) = 0
          rw [if_neg hreg]
      · rintro (h | h)
        · cases h
        · show (if reg < 0 then reg else 0) ≠ 0
          rw [if_pos h]
          exact ne_of_lt h
    · intro h
      cases h
    · intro b hb hreg
      show (if reg < 0 then reg else 0) = reg
      rw [if_pos hreg]
    · intro b hb hreg
      show (if reg < 0 then reg else 0) = 0
      rw [if_neg (Int.not_lt.mpr hreg)]

/-- C8 witness: the three concrete outcomes of init. -/
theorem C8_init_witness :
    (KallsymsHook.ksu_mount_hook_init none (-3) = -KallsymsHook.ENOENT) ∧
    (KallsymsHook.ksu_mount_hook_init (some 5) (-3) = -3) ∧
    (KallsymsHook.ksu_mount_hook_init (some 5) 0 = 0) :=
  ⟨(C8_init_failure_characterization none (-3)).2.1 rfl,
   (C8_init_failure_characterization (some 5) (-3)).2.2.1 5 rfl (by decide),
   (C8_init_failure_characterization (some 5) 0).2.2.2 5 rfl (by decide)⟩

/-- C9: in the alternate variant, after the bootstrap latch and a captured
trusted device name, an invocation whose source mount has a NULL device name
pointer is not skipped by the scope gate: with a shared destination the spoof
is applied, the recorded marker is true and the live destination flags lose
exactly the MNT_SHARED mask. -/
theorem C9_null_devname_remains_in_scope
    (g : ZygoteHook.ZygoteGlobals) (slot : ksu_attach_mnt_state) (s d : Nat)
    (heap : MntHeap)
    (hz : g.ksu_zygote_started ≠ 0)
    (hi : g.ksu_modules_devname_initialized ≠ 0)
    (hdn : (heap s).mnt_devname = none)
    (hsh : (heap d).mnt.mnt_flags &&& MNT_SHARED ≠ 0) :
    ((ZygoteHook.ksu_attach_recursive_mnt_entry g slot (some s) (some d)
        heap).1.spoofed = true) ∧
    (((ZygoteHook.ksu_attach_recursive_mnt_entry g slot (some s) (some d)
        heap).2.2 d).mnt.mnt_flags
      = (heap d).mnt.mnt_flags &&& NOT_MNT_SHARED) := by
  have hg1 := ZygoteHook_capture_noop g (heap s).mnt_devname hi
  have hskip : ¬ (g.ksu_zygote_started ≠ 0 ∧
      (g.ksu_modules_devname_initialized = 0 ∨
       ZygoteHook.devname_differs g.ksu_modules_devname
         (heap s).mnt_devname = true)) := by
    rintro ⟨-, h | h⟩
    · exact hi h
    · rw [hdn] at h
      simp [ZygoteHook.devname_differs] at h
  rw [ZygoteHook_entry_eq, hg1, if_neg hskip, if_neg hsh]
  exact ⟨rfl, by simp [heapWriteFlags]⟩

/-- C9 witness: a concrete NULL-devname source after latch and capture, with
a shared destination, is spoofed. -/
theorem C9_null_devname_witness :
    ((ZygoteHook.ksu_attach_recursive_mnt_entry ⟨1, 1, "/dev/block/loop0"⟩
        slot0 (some 0) (some 1) zygoteHeapA).1.spoofed = true) ∧
    (((ZygoteHook.ksu_attach_recursive_mnt_entry ⟨1, 1, "/dev/block/loop0"⟩
        slot0 (some 0) (some 1) zygoteHeapA).2.2 1).mnt.mnt_flags
      = (zygoteHeapA 1).mnt.mnt_flags &&& NOT_MNT_SHARED) :=
  C9_null_devname_remains_in_scope ⟨1, 1, "/dev/block/loop0"⟩ slot0 0 1
    zygoteHeapA (by decide) (by decide) rfl (by decide)

/-- C10: whenever the canonical entry handler records spoofed = true, the
recorded original_flags value has the shared bit set, and the live
destination flags right after entry equal original_flags with only bit 12
(the MNT_SHARED bit) cleared, every other bit of the 32-bit flags value
unchanged. -/
theorem C10_spoof_clears_only_shared_bit
    (p : Nat) (slot : ksu_attach_mnt_state) (src dst : Option Nat)
    (heap : MntHeap) (d : Nat)
    (h32 : ∀ n, (heap n).mnt.mnt_flags < 2 ^ 32)
    (hs : (MountHook.ksu_attach_recursive_mnt_entry p slot src dst
        heap).1.spoofed = true)
    (hd : (MountHook.ksu_attach_recursive_mnt_entry p slot src dst
        heap).1.dest_mnt = some d) :
    ((MountHook.ksu_attach_recursive_mnt_entry p slot src dst
        heap).1.original_flags &&& MNT_SHARED ≠ 0) ∧
    (((MountHook.ksu_attach_recursive_mnt_entry p slot src dst heap).2
        d).mnt.mnt_flags.testBit 12 = false) ∧
    (∀ i, i ≠ 12 →
      ((MountHook.ksu_attach_recursive_mnt_entry p slot src dst heap).2
          d).mnt.mnt_flags.testBit i
        = (MountHook.ksu_attach_recursive_mnt_entry p slot src dst
            heap).1.original_flags.testBit i) := by
  cases dst with
  | none =>
    rw [MountHook_entry_none] at hs
    exact absurd hs (by simp)
  | some d0 =>
    rw [MountHook_entry_eq] at hs hd ⊢
    split_ifs at hs hd ⊢ with h1 h2
    have hdd : d0 = d := by simpa using hd
    subst hdd
    refine ⟨?_, ?_, ?_⟩
    · exact h2
    · simpa [heapWriteFlags] using
        land_notShared_testBit12 ((heap d0).mnt.mnt_flags)
    · intro i hi
      simpa [heapWriteFlags] using
        land_notShared_testBit ((heap d0).mnt.mnt_flags) (h32 d0) i hi

/-- C10 witness: the concrete spoofed frame on flags 0x1010, checking bit 12
is cleared and bit 4 is preserved. -/
theorem C10_spoof_bits_witness :
    ((MountHook.ksu_attach_recursive_mnt_entry 1 slot0 (some 0) (some 1)
        heap1010).1.original_flags &&& MNT_SHARED ≠ 0) ∧
    (((MountHook.ksu_attach_recursive_mnt_entry 1 slot0 (some 0) (some 1)
        heap1010).2 1).mnt.mnt_flags.testBit 12 = false) ∧
    (((MountHook.ksu_attach_recursive_mnt_entry 1 slot0 (some 0) (some 1)
        heap1010).2 1).mnt.mnt_flags.testBit 4
      = (MountHook.ksu_attach_recursive_mnt_entry 1 slot0 (some 0) (some 1)
          heap1010).1.original_flags.testBit 4) := by
  have h := C10_spoof_clears_only_shared_bit 1 slot0 (some 0) (some 1)
    heap1010 1 (fun n => by show (0x1010 : Nat) < 2 ^ 32; decide)
    (by decide) (by decide)
  exact ⟨h.1, h.2.1, h.2.2 4 (by decide)⟩
